import Mathlib

/-!
# ytdlp-operator: the Download controller

A shallow embedding of `api/v1/download_types.go` and
`internal/controller/download_controller.go`, followed by theorems about
the job materializer (`buildYtDlpArgs`, `newDownloadJob`) and the control
loop (`Reconcile`).

Go pointers are `Option`s, Go slices are `List`s, the API server is an
explicit `Cluster` value threaded through `Reconcile`, and a run-time
nil pointer dereference is an explicit outcome.
-/

set_option autoImplicit false

namespace YtdlpOperator

/-! ## Kubernetes object metadata (the fields the controller touches) -/

/-- Group and version of an API type; its string form is `Group/Version`. -/
structure GroupVersion where
  Group : String
  Version : String
deriving DecidableEq, Repr

/-- Group, version and kind of an API type, as a scheme resolves it. -/
structure GroupVersionKind where
  Group : String
  Version : String
  Kind : String
deriving DecidableEq, Repr

/-- The `metav1.OwnerReference` back-reference from an owned object to its owner. -/
structure OwnerReference where
  APIVersion : GroupVersion
  Kind : String
  Name : String
  UID : String
  Controller : Option Bool
  BlockOwnerDeletion : Option Bool
deriving DecidableEq, Repr

/-- The part of `metav1.ObjectMeta` read or written by the controller. -/
structure ObjectMeta where
  Name : String
  Namespace : String
  UID : String := ""
  OwnerReferences : List OwnerReference := []
deriving DecidableEq, Repr

/-- A `metav1.Time`, as seconds since the epoch. -/
structure Time where
  seconds : Int
deriving DecidableEq, Repr

/-- A `metav1.Condition` entry of a status. -/
structure Condition where
  TypeName : String
  Status : String
  ObservedGeneration : Int
  LastTransitionTime : Time
  Reason : String
  Message : String
deriving DecidableEq, Repr

/-! ## api/v1/download_types.go -/

/-- PostProcessingConfig defines steps like audio extraction. -/
structure PostProcessingConfig where
  ExtractAudio : Bool
  AudioFormat : String
deriving DecidableEq, Repr

/-- S3Output names the bucket, the key and the credentials secret. -/
structure S3Output where
  Bucket : String
  Key : String
  SecretRef : String
deriving DecidableEq, Repr

/-- OutputConfig defines the destination; `S3` is an optional pointer. -/
structure OutputConfig where
  S3 : Option S3Output
deriving DecidableEq, Repr

/-- DownloadSpec defines the desired state of a Download. -/
structure DownloadSpec where
  InputURL : String
  FormatSelection : String
  PostProcessing : Option PostProcessingConfig
  Output : OutputConfig
deriving DecidableEq, Repr

/-- DownloadStatus defines the observed state of a Download. -/
structure DownloadStatus where
  Phase : String := ""
  JobName : String := ""
  DownloadRate : String := ""
  CompletionTime : Option Time := none
  ErrorMessage : String := ""
  Conditions : List Condition := []
deriving DecidableEq, Repr

/-- Download is the custom resource: metadata, spec and status. -/
structure Download where
  ObjectMeta : ObjectMeta
  Spec : DownloadSpec
  Status : DownloadStatus := {}
deriving DecidableEq, Repr

/-! ## The worker Job (batch/v1 and core/v1, the fields the controller sets or reads) -/

/-- A `corev1.SecretKeySelector`: a key of a named secret. -/
structure SecretKeySelector where
  Name : String
  Key : String
deriving DecidableEq, Repr

/-- A `corev1.EnvVarSource`; only the secret reference is used here. -/
structure EnvVarSource where
  SecretKeyRef : Option SecretKeySelector
deriving DecidableEq, Repr

/-- A `corev1.EnvVar`: a literal `Value` or a `ValueFrom` source. -/
structure EnvVar where
  Name : String
  Value : String := ""
  ValueFrom : Option EnvVarSource := none
deriving DecidableEq, Repr

/-- A `corev1.Container`. -/
structure Container where
  Name : String
  Image : String
  Args : List String
  Env : List EnvVar
deriving DecidableEq, Repr

/-- The `corev1.RestartPolicy` constants. -/
inductive RestartPolicy
  | Always
  | OnFailure
  | Never
deriving DecidableEq, Repr

/-- A `corev1.PodSpec`. -/
structure PodSpec where
  RestartPolicy : RestartPolicy
  TerminationGracePeriodSeconds : Option Int
  Containers : List Container
deriving DecidableEq, Repr

/-- A `corev1.PodTemplateSpec`. -/
structure PodTemplateSpec where
  Spec : PodSpec
deriving DecidableEq, Repr

/-- A `batchv1.JobSpec`. -/
structure JobSpec where
  Template : PodTemplateSpec
deriving DecidableEq, Repr

/-- The execution counters of a `batchv1.JobStatus`. -/
structure JobStatus where
  Active : Int := 0
  Succeeded : Int := 0
  Failed : Int := 0
deriving DecidableEq, Repr

/-- A `batchv1.Job`. -/
structure Job where
  ObjectMeta : ObjectMeta
  Spec : JobSpec
  Status : JobStatus := {}
deriving DecidableEq, Repr

/-! ## internal/controller/download_controller.go: the materializer -/

/-- Helper function to build the command-line arguments for yt-dlp. -/
def buildYtDlpArgs (spec : DownloadSpec) : List String :=
  let args := ["yt-dlp", "--no-mtime", "--ignore-errors", "-o", "/data/%(title)s.%(ext)s"]
  -- 1. Format Selection
  let args :=
    if spec.FormatSelection ≠ "" then args ++ ["--format", spec.FormatSelection] else args
  -- 2. Post-Processing
  let args :=
    match spec.PostProcessing with
    | some pp =>
      if pp.ExtractAudio then
        let args := args ++ ["--extract-audio"]
        if pp.AudioFormat ≠ "" then args ++ ["--audio-format", pp.AudioFormat] else args
      else args
    | none => args
  -- 3. S3 Output Configuration
  let args :=
    match spec.Output.S3 with
    | some s3 => args ++ ["--upload-to", "s3-generic", "--s3-bucket", s3.Bucket]
    | none => args
  -- 4. Input URL (always last)
  args ++ [spec.InputURL]

/-- The result of running a Go function body: it returns a value, or the
run time stops it with a nil pointer dereference. -/
inductive GoRun (α : Type)
  | ret (a : α)
  | nilPointerDereference
deriving DecidableEq, Repr

/-- A Go `error` value as the controller tells them apart: the API
NotFound status, the API AlreadyExists status, or any other error. -/
inductive Err
  | NotFound
  | AlreadyExists
  | Other (msg : String)
deriving DecidableEq, Repr

/-- newDownloadJob creates the Kubernetes Job object for the download worker.
The environment entries read `download.Spec.Output.S3.SecretRef` with no
nil check, so a Download without an S3 output stops the function. -/
def newDownloadJob (download : Download) (jobName : String) : GoRun (Job × Option Err) :=
  let args := buildYtDlpArgs download.Spec
  match download.Spec.Output.S3 with
  | none => GoRun.nilPointerDereference
  | some s3 =>
    -- Environment variables for S3 credentials
    let s3EnvVars : List EnvVar := [
      { Name := "AWS_ACCESS_KEY_ID",
        ValueFrom := some { SecretKeyRef := some { Name := s3.SecretRef, Key := "accessKeyID" } } },
      { Name := "AWS_SECRET_ACCESS_KEY",
        ValueFrom := some { SecretKeyRef := some { Name := s3.SecretRef, Key := "secretAccessKey" } } }]
    let terminationGracePeriodSeconds : Int := 60
    let job : Job := {
      ObjectMeta := { Name := jobName, Namespace := download.ObjectMeta.Namespace },
      Spec := { Template := { Spec := {
        RestartPolicy := RestartPolicy.OnFailure,
        TerminationGracePeriodSeconds := some terminationGracePeriodSeconds,
        Containers := [
          { Name := "yt-dlp-worker",
            Image := "yt-dlp/yt-dlp:latest",
            Args := args,
            Env := s3EnvVars }] } } } }
    GoRun.ret (job, none)

/-! ## The API server as seen through `client.Client` -/

/-- The key of a namespaced object. -/
structure NamespacedName where
  Name : String
  Namespace : String
deriving DecidableEq, Repr

/-- The objects held by the API server. -/
structure Cluster where
  downloads : List Download
  jobs : List Job
deriving DecidableEq, Repr

/-- Whether object metadata carries the given key. -/
def hasKey (m : ObjectMeta) (key : NamespacedName) : Bool :=
  m.Name == key.Name && m.Namespace == key.Namespace

/-- The Download stored under a key, if any. -/
def Cluster.findDownload (c : Cluster) (key : NamespacedName) : Option Download :=
  c.downloads.find? (fun d => hasKey d.ObjectMeta key)

/-- The Job stored under a key, if any. -/
def Cluster.findJob (c : Cluster) (key : NamespacedName) : Option Job :=
  c.jobs.find? (fun j => hasKey j.ObjectMeta key)

/-- The client of the reconciler: for each of the three store calls that
`Reconcile` makes, the error the call fails with, or `none` when the call
goes through to the store. -/
structure Client where
  getDownloadErr : Option Err := none
  getJobErr : Option Err := none
  createJobErr : Option Err := none
deriving DecidableEq, Repr

/-- The call `r.Get(ctx, key, download)`. -/
def Client.GetDownload (cl : Client) (c : Cluster) (key : NamespacedName) : Except Err Download :=
  match cl.getDownloadErr with
  | some e => Except.error e
  | none =>
    match c.findDownload key with
    | some d => Except.ok d
    | none => Except.error Err.NotFound

/-- The call `r.Get(ctx, key, foundJob)`. -/
def Client.GetJob (cl : Client) (c : Cluster) (key : NamespacedName) : Except Err Job :=
  match cl.getJobErr with
  | some e => Except.error e
  | none =>
    match c.findJob key with
    | some j => Except.ok j
    | none => Except.error Err.NotFound

/-- The call `r.Create(ctx, job)`: the store refuses a second object under
a key it already holds, and otherwise keeps the object. -/
def Client.CreateJob (cl : Client) (c : Cluster) (job : Job) : Except Err Cluster :=
  match cl.createJobErr with
  | some e => Except.error e
  | none =>
    match c.findJob { Name := job.ObjectMeta.Name, Namespace := job.ObjectMeta.Namespace } with
    | some _ => Except.error Err.AlreadyExists
    | none => Except.ok { c with jobs := c.jobs ++ [job] }

/-- The helper `client.IgnoreNotFound`: nil for nil and for NotFound. -/
def IgnoreNotFound (err : Option Err) : Option Err :=
  match err with
  | some Err.NotFound => none
  | other => other

/-! ## `controllerutil.SetControllerReference` -/

/-- What the `runtime.Scheme` of the reconciler resolves the Download type
to: its group, version and kind, or nothing when the type is not registered. -/
structure Scheme where
  downloadKind : Option GroupVersionKind
deriving DecidableEq, Repr

/-- The owner check: a namespaced owner needs an object in its own namespace. -/
def validateOwner (owner object : ObjectMeta) : Option Err :=
  let ownerNs := owner.Namespace
  if ownerNs ≠ "" then
    let objNs := object.Namespace
    if objNs = "" then
      some (Err.Other "cluster-scoped resource must not have a namespace-scoped owner")
    else if ownerNs ≠ objNs then
      some (Err.Other "cross-namespace owner references are disallowed")
    else none
  else none

/-- The helper `metav1.GetControllerOf`: the first reference marked controller. -/
def GetControllerOf (controlled : ObjectMeta) : Option OwnerReference :=
  controlled.OwnerReferences.find? (fun ref => ref.Controller == some true)

/-- Two references name the same object: same group, kind and name. -/
def referSameObject (a b : OwnerReference) : Bool :=
  a.APIVersion.Group == b.APIVersion.Group && a.Kind == b.Kind && a.Name == b.Name

/-- Replace the reference to the same object, or append the reference. -/
def upsertOwnerRef (ref : OwnerReference) (refs : List OwnerReference) : List OwnerReference :=
  match refs.findIdx? (fun r => referSameObject r ref) with
  | some idx => refs.set idx ref
  | none => refs ++ [ref]

/-- The library call `controllerutil.SetControllerReference(download, job, scheme)`:
on success the job carries a controller reference to the owner. -/
def SetControllerReference (owner : ObjectMeta) (job : Job) (scheme : Scheme) : Except Err Job :=
  match validateOwner owner job.ObjectMeta with
  | some e => Except.error e
  | none =>
    match scheme.downloadKind with
    | none => Except.error (Err.Other "no kind is registered for the type v1.Download in scheme")
    | some gvk =>
      let ref : OwnerReference := {
        APIVersion := { Group := gvk.Group, Version := gvk.Version },
        Kind := gvk.Kind,
        Name := owner.Name,
        UID := owner.UID,
        BlockOwnerDeletion := some true,
        Controller := some true }
      match GetControllerOf job.ObjectMeta with
      | some existing =>
        if referSameObject existing ref then
          Except.ok { job with ObjectMeta :=
            { job.ObjectMeta with OwnerReferences := upsertOwnerRef ref job.ObjectMeta.OwnerReferences } }
        else Except.error (Err.Other "Object is already owned by another controller")
      | none =>
        Except.ok { job with ObjectMeta :=
          { job.ObjectMeta with OwnerReferences := upsertOwnerRef ref job.ObjectMeta.OwnerReferences } }

/-! ## internal/controller/download_controller.go: the control loop -/

/-- DownloadReconciler reconciles a Download object. -/
structure DownloadReconciler where
  Client : Client
  Scheme : Scheme
deriving DecidableEq, Repr

/-- The `ctrl.Request`: the key of the Download to reconcile. -/
structure Request where
  NamespacedName : NamespacedName
deriving DecidableEq, Repr

/-- The `ctrl.Result`: whether and after how long to reconcile again. -/
structure Result where
  Requeue : Bool := false
  RequeueAfter : Int := 0
deriving DecidableEq, Repr

/-- How a run of `Reconcile` ends: it returns `(Result, error)`, or the
run time stops it with a nil pointer dereference. -/
inductive Outcome
  | returned (res : Result) (err : Option Err)
  | nilPointerDereference
deriving DecidableEq, Repr

/-- The cluster after a run of `Reconcile`, and how the run ended. -/
structure Step where
  cluster : Cluster
  outcome : Outcome
deriving DecidableEq, Repr

/-- Reconcile moves the current state of the cluster closer to the desired state. -/
def Reconcile (r : DownloadReconciler) (c : Cluster) (req : Request) : Step :=
  -- 1. Fetch the Download instance
  match r.Client.GetDownload c req.NamespacedName with
  | Except.error err =>
    -- Ignore not found errors: the resource was likely deleted
    { cluster := c, outcome := Outcome.returned {} (IgnoreNotFound (some err)) }
  | Except.ok download =>
    let jobName := download.ObjectMeta.Name ++ "-worker"
    match r.Client.GetJob c { Name := jobName, Namespace := download.ObjectMeta.Namespace } with
    | Except.ok _ =>
      -- Job found: nothing is done with it yet
      { cluster := c, outcome := Outcome.returned {} none }
    | Except.error err =>
      if IgnoreNotFound (some err) ≠ none then
        -- Actual error fetching the job (not just NotFound)
        { cluster := c, outcome := Outcome.returned {} (some err) }
      else
        -- Job not found: Create it.
        match newDownloadJob download jobName with
        | GoRun.nilPointerDereference =>
          { cluster := c, outcome := Outcome.nilPointerDereference }
        | GoRun.ret (_, some err) =>
          { cluster := c, outcome := Outcome.returned {} (some err) }
        | GoRun.ret (job, none) =>
          -- Set the OwnerReference (crucial for garbage collection)
          match SetControllerReference download.ObjectMeta job r.Scheme with
          | Except.error err =>
            { cluster := c, outcome := Outcome.returned {} (some err) }
          | Except.ok job =>
            -- Create the Job
            match r.Client.CreateJob c job with
            | Except.error err =>
              { cluster := c, outcome := Outcome.returned {} (some err) }
            | Except.ok c2 =>
              -- Job created successfully, requeue immediately
              { cluster := c2, outcome := Outcome.returned { Requeue := true } none }

/-- The key under which `Reconcile` looks for and creates the worker Job. -/
def workerKey (d : Download) : NamespacedName :=
  { Name := d.ObjectMeta.Name ++ "-worker", Namespace := d.ObjectMeta.Namespace }

/-! ## The argument contract, stated piece by piece -/

/-- The fixed invocation preamble of the argument contract. -/
def preamble : List String :=
  ["yt-dlp", "--no-mtime", "--ignore-errors", "-o", "/data/%(title)s.%(ext)s"]

/-- Contract item 2: the format flag and its value, iff the selection is non-empty. -/
def formatArgs (s : DownloadSpec) : List String :=
  if s.FormatSelection = "" then [] else ["--format", s.FormatSelection]

/-- Contract item 3: the extraction flag iff extraction is requested, followed
by the audio format flag and its value iff the format is non-empty. -/
def audioArgs (s : DownloadSpec) : List String :=
  match s.PostProcessing with
  | none => []
  | some pp =>
    if pp.ExtractAudio = true then
      ["--extract-audio"] ++ (if pp.AudioFormat = "" then [] else ["--audio-format", pp.AudioFormat])
    else []

/-- Contract item 4: the upload directives of the S3 variant, when present. -/
def uploadArgs (s : DownloadSpec) : List String :=
  match s.Output.S3 with
  | none => []
  | some s3 => ["--upload-to", "s3-generic", "--s3-bucket", s3.Bucket]

/-! ## Concrete objects used as examples -/

/-- The S3 destination of the controller test. -/
def testS3 : S3Output :=
  { Bucket := "test-bucket", Key := "video.mp4", SecretRef := "s3-creds" }

/-- The spec of the controller test. -/
def testSpec : DownloadSpec :=
  { InputURL := "https://example.com/video", FormatSelection := "", PostProcessing := none,
    Output := { S3 := some testS3 } }

/-- The spec of the controller test, with audio extraction to mp3. -/
def testSpecAudio : DownloadSpec :=
  { testSpec with PostProcessing := some { ExtractAudio := true, AudioFormat := "mp3" } }

/-- A spec whose format selection is the text of the audio format flag. -/
def flagAsFormatSpec : DownloadSpec :=
  { InputURL := "https://example.com/video", FormatSelection := "--audio-format",
    PostProcessing := none, Output := { S3 := none } }

/-- The Download of the controller test. -/
def testDownload : Download :=
  { ObjectMeta := { Name := "test-download-basic", Namespace := "default", UID := "uid-1" },
    Spec := testSpec }

/-- The scheme of the controller test: the Download type is registered. -/
def testScheme : Scheme :=
  { downloadKind := some { Group := "download.beebs.dev", Version := "v1", Kind := "Download" } }

/-- The reconciler of the controller test, with a client whose calls all go through. -/
def testReconciler : DownloadReconciler :=
  { Client := {}, Scheme := testScheme }

/-- The request of the controller test. -/
def testRequest : Request :=
  { NamespacedName := { Name := "test-download-basic", Namespace := "default" } }

/-- The cluster of the controller test: the Download and no Job. -/
def pendingCluster : Cluster :=
  { downloads := [testDownload], jobs := [] }

/-- A Download whose output has no S3 variant. -/
def noS3Download : Download :=
  { ObjectMeta := { Name := "no-s3", Namespace := "default", UID := "uid-2" },
    Spec := { InputURL := "https://example.com/video", FormatSelection := "",
              PostProcessing := none, Output := { S3 := none } } }

/-- A cluster holding only the Download without S3 output. -/
def noS3Cluster : Cluster :=
  { downloads := [noS3Download], jobs := [] }

/-- The request for the Download without S3 output. -/
def noS3Request : Request :=
  { NamespacedName := { Name := "no-s3", Namespace := "default" } }

/-- The Download of the controller test, recorded as Completed. -/
def completedDownload : Download :=
  { testDownload with Status := { Phase := "Completed", CompletionTime := some { seconds := 1700000000 } } }

/-- A cluster holding the Completed Download, its worker Job deleted. -/
def completedCluster : Cluster :=
  { downloads := [completedDownload], jobs := [] }

/-- A Job under the worker name of the test Download, with no owner reference. -/
def foreignJob : Job :=
  { ObjectMeta := { Name := "test-download-basic-worker", Namespace := "default", UID := "uid-9" },
    Spec := { Template := { Spec := {
      RestartPolicy := RestartPolicy.Never,
      TerminationGracePeriodSeconds := none,
      Containers := [ { Name := "other", Image := "busybox", Args := [], Env := [] } ] } } } }

/-- A cluster holding the Completed Download and a Job under its worker name. -/
def completedClusterWithJob : Cluster :=
  { downloads := [completedDownload], jobs := [foreignJob] }

/-- A cluster holding the test Download and an unowned Job under its worker name. -/
def conflictCluster : Cluster :=
  { downloads := [testDownload], jobs := [foreignJob] }

/-- The Download of the controller test, recorded as Running. -/
def runningDownload : Download :=
  { testDownload with Status := { Phase := "Running", JobName := "test-download-basic-worker" } }

/-- The worker Job of the test Download, owned by it, reporting one success. -/
def succeededJob : Job :=
  { ObjectMeta := {
      Name := "test-download-basic-worker", Namespace := "default", UID := "uid-3",
      OwnerReferences := [ {
        APIVersion := { Group := "download.beebs.dev", Version := "v1" },
        Kind := "Download", Name := "test-download-basic", UID := "uid-1",
        Controller := some true, BlockOwnerDeletion := some true } ] },
    Spec := { Template := { Spec := {
      RestartPolicy := RestartPolicy.OnFailure,
      TerminationGracePeriodSeconds := some 60,
      Containers := [
        { Name := "yt-dlp-worker",
          Image := "yt-dlp/yt-dlp:latest",
          Args := buildYtDlpArgs testSpec,
          Env := [] } ] } } },
    Status := { Active := 0, Succeeded := 1, Failed := 0 } }

/-- A cluster holding the Running Download and its succeeded worker Job. -/
def succeededCluster : Cluster :=
  { downloads := [runningDownload], jobs := [succeededJob] }

/-- A cluster that holds no Download, and a Job left over under the worker name. -/
def absentCluster : Cluster :=
  { downloads := [], jobs := [foreignJob] }

/-- A client whose Get of the Download fails with a server error. -/
def failingGetDownloadClient : Client :=
  { getDownloadErr := some (Err.Other "the server is currently unable to handle the request") }

/-- A client whose Get of the Job fails with a server error. -/
def failingGetJobClient : Client :=
  { getJobErr := some (Err.Other "the server is currently unable to handle the request") }

/-- A client whose Create of the Job fails with a server error. -/
def failingCreateClient : Client :=
  { createJobErr := some (Err.Other "the server is currently unable to handle the request") }

/-! ## The phase order of the data model -/

/-- The place of a phase in the order Pending, Running, then Completed or
Failed; a string that is none of the four has no place. -/
def phaseRank (phase : String) : Option Nat :=
  if phase = "Pending" then some 0
  else if phase = "Running" then some 1
  else if phase = "Completed" then some 2
  else if phase = "Failed" then some 2
  else none

/-- A forward move in the phase order: from a phase to one strictly later. -/
def phaseForward (before after : String) : Prop :=
  match phaseRank before, phaseRank after with
  | some a, some b => a < b
  | _, _ => False

/-- The terminal phases. -/
def terminalPhase (phase : String) : Prop :=
  phase = "Completed" ∨ phase = "Failed"

/-! ## Theorems: the materializer -/

/-- The code builds the five parts of the contract in their order. -/
lemma buildYtDlpArgs_parts (s : DownloadSpec) :
    buildYtDlpArgs s = preamble ++ formatArgs s ++ audioArgs s ++ uploadArgs s ++ [s.InputURL] := by
  obtain ⟨url, fmt, pp, ⟨s3⟩⟩ := s
  unfold buildYtDlpArgs preamble formatArgs audioArgs uploadArgs
  cases pp with
  | none => cases s3 <;> by_cases hf : fmt = "" <;> simp [hf]
  | some pp =>
    obtain ⟨ea, af⟩ := pp
    cases s3 <;> cases ea <;> by_cases hf : fmt = "" <;> by_cases ha : af = "" <;> simp [hf, ha]

/-- C1: for every spec the arguments are exactly the preamble, then the
format pair iff the selection is non-empty, then the extraction flag and the
audio format pair under their conditions, then the S3 upload directives iff
the S3 output is present, then the input URL; and the test spec with audio
extraction to mp3 yields the expected sequence. -/
theorem buildYtDlpArgs_eq_contract :
    (∀ s : DownloadSpec,
      buildYtDlpArgs s = preamble ++ formatArgs s ++ audioArgs s ++ uploadArgs s ++ [s.InputURL]) ∧
    buildYtDlpArgs testSpecAudio =
      preamble ++ ["--extract-audio", "--audio-format", "mp3", "--upload-to", "s3-generic",
        "--s3-bucket", "test-bucket", "https://example.com/video"] := by
  exact ⟨buildYtDlpArgs_parts, by decide⟩

/-- C4: for every spec the argument list is non-empty and its last element
is the input URL. -/
theorem buildYtDlpArgs_last_is_InputURL (s : DownloadSpec) :
    buildYtDlpArgs s ≠ [] ∧ (buildYtDlpArgs s).getLast? = some s.InputURL := by
  unfold buildYtDlpArgs
  simp

/-- C5, at a concrete spec: with the flag text as format selection and no
post-processing, the audio format flag is an argument and the extraction
flag is not. -/
theorem audio_format_without_extract_audio :
    "--audio-format" ∈ buildYtDlpArgs flagAsFormatSpec ∧
    "--extract-audio" ∉ buildYtDlpArgs flagAsFormatSpec := by
  decide

/-- C5, amended: when neither the format selection, nor the bucket of a
present S3 output, nor the input URL is itself the text of the audio format
flag, the audio format flag among the arguments implies the extraction flag
among them; the audio format value is unrestricted. -/
theorem audio_format_implies_extract_audio (s : DownloadSpec)
    (hfmt : s.FormatSelection ≠ "--audio-format")
    (hbucket : ∀ s3, s.Output.S3 = some s3 → s3.Bucket ≠ "--audio-format")
    (hurl : s.InputURL ≠ "--audio-format")
    (h : "--audio-format" ∈ buildYtDlpArgs s) :
    "--extract-audio" ∈ buildYtDlpArgs s := by
  rw [buildYtDlpArgs_parts] at h ⊢
  have haudio : "--audio-format" ∈ audioArgs s := by
    simp only [List.mem_append, List.mem_singleton] at h
    rcases h with (((hp | hf) | ha) | hu) | hi
    · exact absurd hp (by unfold preamble; decide)
    · unfold formatArgs at hf
      split at hf
      · simp at hf
      · simp at hf
        exact absurd hf.symm hfmt
    · exact ha
    · unfold uploadArgs at hu
      split at hu
      · simp at hu
      · rename_i s3 hs3
        simp at hu
        exact absurd hu.symm (hbucket s3 hs3)
    · exact absurd hi.symm hurl
  have hextract : "--extract-audio" ∈ audioArgs s := by
    unfold audioArgs at haudio ⊢
    split at haudio
    · simp at haudio
    · split at haudio
      · rename_i hea
        simp [hea]
      · simp at haudio
  simp only [List.mem_append]
  exact Or.inl (Or.inl (Or.inr hextract))

/-- C5, amended, at the test spec with audio extraction. -/
theorem audio_format_implies_extract_audio_witness :
    "--audio-format" ∈ buildYtDlpArgs testSpecAudio ∧
    "--extract-audio" ∈ buildYtDlpArgs testSpecAudio :=
  ⟨by decide,
   audio_format_implies_extract_audio testSpecAudio (by decide) (by decide) (by decide) (by decide)⟩

/-- C6: for a Download with an S3 output, newDownloadJob returns a Job and
no error; the Job has one container, whose environment is exactly the access
key id entry then the secret access key entry, each read from its key of the
secret named by SecretRef, and each with an empty literal value. -/
theorem newDownloadJob_env (d : Download) (jobName : String) (s3 : S3Output)
    (hs3 : d.Spec.Output.S3 = some s3) :
    ∃ job ct, newDownloadJob d jobName = GoRun.ret (job, none) ∧
      job.Spec.Template.Spec.Containers = [ct] ∧
      ct.Env =
        [ { Name := "AWS_ACCESS_KEY_ID", Value := "",
            ValueFrom := some { SecretKeyRef := some { Name := s3.SecretRef, Key := "accessKeyID" } } },
          { Name := "AWS_SECRET_ACCESS_KEY", Value := "",
            ValueFrom := some { SecretKeyRef := some { Name := s3.SecretRef, Key := "secretAccessKey" } } } ] ∧
      ∀ e ∈ ct.Env, e.Value = "" := by
  unfold newDownloadJob
  simp [hs3]

/-- C6 at the Download of the controller test. -/
theorem newDownloadJob_env_witness :
    ∃ job ct, newDownloadJob testDownload "test-download-basic-worker" = GoRun.ret (job, none) ∧
      job.Spec.Template.Spec.Containers = [ct] ∧
      ct.Env =
        [ { Name := "AWS_ACCESS_KEY_ID", Value := "",
            ValueFrom := some { SecretKeyRef := some { Name := "s3-creds", Key := "accessKeyID" } } },
          { Name := "AWS_SECRET_ACCESS_KEY", Value := "",
            ValueFrom := some { SecretKeyRef := some { Name := "s3-creds", Key := "secretAccessKey" } } } ] ∧
      ∀ e ∈ ct.Env, e.Value = "" :=
  newDownloadJob_env testDownload "test-download-basic-worker" testS3 rfl

/-! ## Theorems: the control loop -/

/-- The owner check passes for an object in the namespace of its owner. -/
lemma validateOwner_same_namespace (owner object : ObjectMeta)
    (h : object.Namespace = owner.Namespace) : validateOwner owner object = none := by
  unfold validateOwner
  by_cases hns : owner.Namespace = "" <;> simp [hns, h]

/-- The Job built for a Download with an S3 output has the given name, the
namespace of the Download and no owner reference. -/
lemma newDownloadJob_some (d : Download) (jobName : String) (s3 : S3Output)
    (hs3 : d.Spec.Output.S3 = some s3) :
    ∃ job, newDownloadJob d jobName = GoRun.ret (job, none) ∧
      job.ObjectMeta = { Name := jobName, Namespace := d.ObjectMeta.Namespace } ∧
      job.Status = {} ∧
      ∃ ct, job.Spec.Template.Spec.Containers = [ct] ∧ ct.Args = buildYtDlpArgs d.Spec := by
  unfold newDownloadJob
  simp [hs3]

/-- Without an S3 output the construction of the Job stops on the nil pointer. -/
lemma newDownloadJob_none (d : Download) (jobName : String) (hs3 : d.Spec.Output.S3 = none) :
    newDownloadJob d jobName = GoRun.nilPointerDereference := by
  unfold newDownloadJob
  simp [hs3]

/-- On a Job without owner references in the namespace of the owner, setting
the controller reference fails iff the scheme does not know the Download
type, and otherwise stores exactly the controller reference to the owner. -/
lemma SetControllerReference_fresh (owner : ObjectMeta) (job : Job) (scheme : Scheme)
    (gvk : GroupVersionKind) (hk : scheme.downloadKind = some gvk)
    (hmeta : job.ObjectMeta = { Name := job.ObjectMeta.Name, Namespace := owner.Namespace }) :
    SetControllerReference owner job scheme =
      Except.ok { job with ObjectMeta := { job.ObjectMeta with OwnerReferences :=
        [ { APIVersion := { Group := gvk.Group, Version := gvk.Version }, Kind := gvk.Kind,
            Name := owner.Name, UID := owner.UID,
            Controller := some true, BlockOwnerDeletion := some true } ] } } := by
  have hns : job.ObjectMeta.Namespace = owner.Namespace := by rw [hmeta]
  have hrefs : job.ObjectMeta.OwnerReferences = [] := by rw [hmeta]
  unfold SetControllerReference
  rw [validateOwner_same_namespace owner job.ObjectMeta hns]
  simp [hk, GetControllerOf, upsertOwnerRef, hrefs]

/-- A Get of the Download that answers with an object answers with the stored one. -/
lemma GetDownload_ok (cl : Client) (c : Cluster) (key : NamespacedName) (d : Download)
    (h : cl.GetDownload c key = Except.ok d) :
    cl.getDownloadErr = none ∧ c.findDownload key = some d := by
  unfold Client.GetDownload at h
  cases hf : cl.getDownloadErr with
  | some e => simp [hf] at h
  | none =>
    cases hd : c.findDownload key with
    | none => simp [hf, hd] at h
    | some d2 =>
      simp [hf, hd] at h
      simp [h]

/-- A Create that succeeds found no Job under the key and appended the Job. -/
lemma CreateJob_ok (cl : Client) (c c2 : Cluster) (job : Job)
    (h : cl.CreateJob c job = Except.ok c2) :
    cl.createJobErr = none ∧
    c.findJob { Name := job.ObjectMeta.Name, Namespace := job.ObjectMeta.Namespace } = none ∧
    c2 = { c with jobs := c.jobs ++ [job] } := by
  unfold Client.CreateJob at h
  cases hf : cl.createJobErr with
  | some e => simp [hf] at h
  | none =>
    cases hj : c.findJob { Name := job.ObjectMeta.Name, Namespace := job.ObjectMeta.Namespace } with
    | some j => simp [hf, hj] at h
    | none =>
      simp [hf, hj] at h
      simp [h]

/-- A run of `Reconcile` leaves the cluster as it was, or it found the
Download, found no worker Job under its key in the store, and appended one
Job with that key; in the first case every returned result is empty. -/
lemma Reconcile_cluster (r : DownloadReconciler) (c : Cluster) (req : Request) :
    ((Reconcile r c req).cluster = c ∧
      ∀ res err, (Reconcile r c req).outcome = Outcome.returned res err → res = {}) ∨
    ∃ d job, c.findDownload req.NamespacedName = some d ∧
      c.findJob (workerKey d) = none ∧
      job.ObjectMeta.Name = (workerKey d).Name ∧
      job.ObjectMeta.Namespace = (workerKey d).Namespace ∧
      d.Spec.Output.S3 ≠ none ∧
      Reconcile r c req =
        { cluster := { c with jobs := c.jobs ++ [job] },
          outcome := Outcome.returned { Requeue := true } none } := by
  unfold Reconcile
  cases hgd : r.Client.GetDownload c req.NamespacedName with
  | error e => left; simp
  | ok d =>
    obtain ⟨-, hfd⟩ := GetDownload_ok _ _ _ _ hgd
    cases hgj : r.Client.GetJob c
        { Name := d.ObjectMeta.Name ++ "-worker", Namespace := d.ObjectMeta.Namespace } with
    | ok j => left; simp [hgj]
    | error e =>
      by_cases hin : IgnoreNotFound (some e) = none
      · cases hs3 : d.Spec.Output.S3 with
        | none =>
          left
          simp [hgj, hin, newDownloadJob_none _ _ hs3]
        | some s3 =>
          obtain ⟨job, hjob, hmeta, -⟩ := newDownloadJob_some d (d.ObjectMeta.Name ++ "-worker") s3 hs3
          cases hk : r.Scheme.downloadKind with
          | none =>
            left
            have hsc : ∃ e2, SetControllerReference d.ObjectMeta job r.Scheme = Except.error e2 := by
              unfold SetControllerReference
              rw [validateOwner_same_namespace d.ObjectMeta job.ObjectMeta (by rw [hmeta])]
              simp [hk]
            obtain ⟨e2, he2⟩ := hsc
            simp [hgj, hin, hjob, he2]
          | some gvk =>
            obtain ⟨job2, hsc, hname, hns⟩ : ∃ job2,
                SetControllerReference d.ObjectMeta job r.Scheme = Except.ok job2 ∧
                job2.ObjectMeta.Name = d.ObjectMeta.Name ++ "-worker" ∧
                job2.ObjectMeta.Namespace = d.ObjectMeta.Namespace :=
              ⟨_, SetControllerReference_fresh d.ObjectMeta job r.Scheme gvk hk (by rw [hmeta]),
                by simp [hmeta], by simp [hmeta]⟩
            cases hcj : r.Client.CreateJob c job2 with
            | error e3 =>
              left
              simp [hgj, hin, hjob, hsc, hcj]
            | ok c2 =>
              right
              obtain ⟨-, hnone, hc2⟩ := CreateJob_ok _ _ _ _ hcj
              refine ⟨d, job2, hfd, ?_, ?_, ?_, ?_, ?_⟩
              · simpa [workerKey, hname, hns] using hnone
              · simp [workerKey, hname]
              · simp [workerKey, hns]
              · simp [hs3]
              · simp [hgj, hin, hjob, hsc, hcj, hc2]
      · left
        simp [hgj, hin]

/-- When both Get calls go through and the store holds the worker Job,
`Reconcile` returns the empty result and no error, and leaves the cluster. -/
lemma Reconcile_job_found (r : DownloadReconciler) (c : Cluster) (req : Request)
    (d : Download) (j : Job)
    (hget : r.Client.getDownloadErr = none) (hgetJob : r.Client.getJobErr = none)
    (hd : c.findDownload req.NamespacedName = some d)
    (hj : c.findJob (workerKey d) = some j) :
    Reconcile r c req = { cluster := c, outcome := Outcome.returned {} none } := by
  unfold workerKey at hj
  simp [Reconcile, Client.GetDownload, Client.GetJob, hget, hgetJob, hd, hj]

/-- When all three store calls go through, the scheme knows the Download
type, the Download has an S3 output and the store holds no worker Job,
`Reconcile` appends the built Job with its controller reference and asks
for an immediate requeue. -/
lemma Reconcile_pending (r : DownloadReconciler) (c : Cluster) (req : Request)
    (d : Download) (s3 : S3Output) (gvk : GroupVersionKind) (job : Job)
    (hget : r.Client.getDownloadErr = none) (hgetJob : r.Client.getJobErr = none)
    (hcreate : r.Client.createJobErr = none)
    (hscheme : r.Scheme.downloadKind = some gvk)
    (hd : c.findDownload req.NamespacedName = some d)
    (hs3 : d.Spec.Output.S3 = some s3)
    (hj : c.findJob (workerKey d) = none)
    (hjob : newDownloadJob d (d.ObjectMeta.Name ++ "-worker") = GoRun.ret (job, none)) :
    Reconcile r c req =
      { cluster := { c with jobs := c.jobs ++
          [ { job with ObjectMeta := { job.ObjectMeta with OwnerReferences :=
              [ { APIVersion := { Group := gvk.Group, Version := gvk.Version }, Kind := gvk.Kind,
                  Name := d.ObjectMeta.Name, UID := d.ObjectMeta.UID,
                  Controller := some true, BlockOwnerDeletion := some true } ] } } ] },
        outcome := Outcome.returned { Requeue := true } none } := by
  obtain ⟨job0, hjob0, hmeta, -⟩ := newDownloadJob_some d (d.ObjectMeta.Name ++ "-worker") s3 hs3
  rw [hjob] at hjob0
  have hjj : job = job0 := by
    injection hjob0 with h1
    exact congrArg Prod.fst h1
  subst hjj
  have hsc := SetControllerReference_fresh d.ObjectMeta job r.Scheme gvk hscheme (by rw [hmeta])
  unfold workerKey at hj
  simp [Reconcile, Client.GetDownload, Client.GetJob, Client.CreateJob, IgnoreNotFound,
    hget, hgetJob, hcreate, hd, hj, hjob, hsc, hmeta]

/-- Looking up a key in a store to which a Job with that key was appended
finds a Job. -/
lemma findJob_append_self (c : Cluster) (job : Job) (key : NamespacedName)
    (hname : job.ObjectMeta.Name = key.Name) (hns : job.ObjectMeta.Namespace = key.Namespace) :
    ({ c with jobs := c.jobs ++ [job] } : Cluster).findJob key ≠ none := by
  unfold Cluster.findJob
  simp only [ne_eq, List.find?_eq_none, not_forall]
  exact ⟨job, by simp, by simp [hasKey, hname, hns]⟩

/-- C2: when the Download named by the request exists with an S3 output, no
Job exists under its worker key, every store call goes through and the
scheme knows the Download type, Reconcile appends exactly one Job to the
store; that Job is named after the Download with the worker suffix, lives in
its namespace, carries the controller owner reference to it, and its single
container has the arguments of buildYtDlpArgs; Reconcile returns no error
and Requeue set. -/
theorem Reconcile_pending_creates_job (r : DownloadReconciler) (c : Cluster) (req : Request)
    (d : Download) (s3 : S3Output) (gvk : GroupVersionKind)
    (hcalls : r.Client = {})
    (hscheme : r.Scheme.downloadKind = some gvk)
    (hd : c.findDownload req.NamespacedName = some d)
    (hs3 : d.Spec.Output.S3 = some s3)
    (hj : c.findJob (workerKey d) = none) :
    ∃ job ct,
      Reconcile r c req =
        { cluster := { downloads := c.downloads, jobs := c.jobs ++ [job] },
          outcome := Outcome.returned { Requeue := true, RequeueAfter := 0 } none } ∧
      job.ObjectMeta.Name = d.ObjectMeta.Name ++ "-worker" ∧
      job.ObjectMeta.Namespace = d.ObjectMeta.Namespace ∧
      job.ObjectMeta.OwnerReferences =
        [ { APIVersion := { Group := gvk.Group, Version := gvk.Version }, Kind := gvk.Kind,
            Name := d.ObjectMeta.Name, UID := d.ObjectMeta.UID,
            Controller := some true, BlockOwnerDeletion := some true } ] ∧
      GetControllerOf job.ObjectMeta =
        some { APIVersion := { Group := gvk.Group, Version := gvk.Version }, Kind := gvk.Kind,
               Name := d.ObjectMeta.Name, UID := d.ObjectMeta.UID,
               Controller := some true, BlockOwnerDeletion := some true } ∧
      job.Spec.Template.Spec.Containers = [ct] ∧
      ct.Args = buildYtDlpArgs d.Spec := by
  obtain ⟨job0, hjob0, hmeta, -, ct, hct, hargs⟩ :=
    newDownloadJob_some d (d.ObjectMeta.Name ++ "-worker") s3 hs3
  have hrun := Reconcile_pending r c req d s3 gvk job0 (by rw [hcalls]) (by rw [hcalls])
    (by rw [hcalls]) hscheme hd hs3 hj hjob0
  refine ⟨_, ct, hrun, ?_, ?_, ?_, ?_, hct, hargs⟩
  · simp [hmeta]
  · simp [hmeta]
  · simp
  · simp [GetControllerOf]

/-- C2 at the cluster of the controller test. -/
theorem Reconcile_pending_creates_job_witness :
    ∃ job ct,
      Reconcile testReconciler pendingCluster testRequest =
        { cluster := { downloads := pendingCluster.downloads, jobs := pendingCluster.jobs ++ [job] },
          outcome := Outcome.returned { Requeue := true, RequeueAfter := 0 } none } ∧
      job.ObjectMeta.Name = testDownload.ObjectMeta.Name ++ "-worker" ∧
      job.ObjectMeta.Namespace = testDownload.ObjectMeta.Namespace ∧
      job.ObjectMeta.OwnerReferences =
        [ { APIVersion := { Group := "download.beebs.dev", Version := "v1" }, Kind := "Download",
            Name := testDownload.ObjectMeta.Name, UID := testDownload.ObjectMeta.UID,
            Controller := some true, BlockOwnerDeletion := some true } ] ∧
      GetControllerOf job.ObjectMeta =
        some { APIVersion := { Group := "download.beebs.dev", Version := "v1" }, Kind := "Download",
               Name := testDownload.ObjectMeta.Name, UID := testDownload.ObjectMeta.UID,
               Controller := some true, BlockOwnerDeletion := some true } ∧
      job.Spec.Template.Spec.Containers = [ct] ∧
      ct.Args = buildYtDlpArgs testDownload.Spec :=
  Reconcile_pending_creates_job testReconciler pendingCluster testRequest testDownload testS3
    { Group := "download.beebs.dev", Version := "v1", Kind := "Download" }
    rfl rfl (by decide) rfl (by decide)

/-- C3: when every store call goes through, a second run of Reconcile for
the same request, right after the first, leaves the cluster exactly as the
first run left it: the second run adds no Job and changes no Download. -/
theorem Reconcile_idempotent (r : DownloadReconciler) (c : Cluster) (req : Request)
    (_hcalls : r.Client = {}) :
    (Reconcile r (Reconcile r c req).cluster req).cluster = (Reconcile r c req).cluster ∧
    (Reconcile r (Reconcile r c req).cluster req).cluster.jobs = (Reconcile r c req).cluster.jobs ∧
    (Reconcile r (Reconcile r c req).cluster req).cluster.downloads =
      (Reconcile r c req).cluster.downloads := by
  have key : (Reconcile r (Reconcile r c req).cluster req).cluster = (Reconcile r c req).cluster := by
    rcases Reconcile_cluster r c req with ⟨h1, -⟩ | ⟨d, job, hd, -, hname, hns, -, hrun⟩
    · rw [h1, h1]
    · rw [hrun]
      rcases Reconcile_cluster r { c with jobs := c.jobs ++ [job] } req with
        ⟨h2, -⟩ | ⟨d2, job2, hd2, hj2, -, -, -, -⟩
      · exact h2
      · exfalso
        have hsame : ({ c with jobs := c.jobs ++ [job] } : Cluster).findDownload req.NamespacedName
            = c.findDownload req.NamespacedName := rfl
        rw [hsame, hd] at hd2
        have hdd : d = d2 := by injection hd2
        subst hdd
        exact findJob_append_self c job (workerKey d) hname hns hj2
  exact ⟨key, by rw [key], by rw [key]⟩

/-- C3 at the cluster of the controller test, where the first run creates the Job. -/
theorem Reconcile_idempotent_witness :
    (Reconcile testReconciler pendingCluster testRequest).cluster.jobs.length = 1 ∧
    ((Reconcile testReconciler (Reconcile testReconciler pendingCluster testRequest).cluster
        testRequest).cluster = (Reconcile testReconciler pendingCluster testRequest).cluster ∧
      (Reconcile testReconciler (Reconcile testReconciler pendingCluster testRequest).cluster
        testRequest).cluster.jobs = (Reconcile testReconciler pendingCluster testRequest).cluster.jobs ∧
      (Reconcile testReconciler (Reconcile testReconciler pendingCluster testRequest).cluster
        testRequest).cluster.downloads =
        (Reconcile testReconciler pendingCluster testRequest).cluster.downloads) :=
  ⟨by decide, Reconcile_idempotent testReconciler pendingCluster testRequest rfl⟩

/-- C7, at a concrete cluster: for the Download without S3 output and
without worker Job, newDownloadJob stops on the nil pointer instead of
yielding an error value, Reconcile stops with it, and afterwards the
Download is stored as before, with a Phase that is not Failed and an empty
ErrorMessage. -/
theorem invalid_output_not_marked_failed :
    newDownloadJob noS3Download "no-s3-worker" = GoRun.nilPointerDereference ∧
    (Reconcile testReconciler noS3Cluster noS3Request).outcome = Outcome.nilPointerDereference ∧
    (Reconcile testReconciler noS3Cluster noS3Request).cluster.findDownload
      noS3Request.NamespacedName = some noS3Download ∧
    noS3Download.Status.Phase ≠ "Failed" ∧
    noS3Download.Status.ErrorMessage = "" := by
  decide

/-- C7, amended: for a Download without S3 output and without worker Job,
Reconcile creates no Job and writes no status: the cluster is left exactly
as it was, whatever the client answers. -/
theorem Reconcile_without_s3_changes_nothing (r : DownloadReconciler) (c : Cluster)
    (req : Request) (d : Download)
    (hd : c.findDownload req.NamespacedName = some d)
    (hs3 : d.Spec.Output.S3 = none)
    (_hj : c.findJob (workerKey d) = none) :
    (Reconcile r c req).cluster = c ∧
    (Reconcile r c req).cluster.jobs = c.jobs ∧
    (Reconcile r c req).cluster.findDownload req.NamespacedName = some d := by
  have key : (Reconcile r c req).cluster = c := by
    rcases Reconcile_cluster r c req with ⟨h1, -⟩ | ⟨d2, job, hd2, -, -, -, hne, -⟩
    · exact h1
    · rw [hd] at hd2
      have hdd : d = d2 := by injection hd2
      subst hdd
      exact absurd hs3 hne
  exact ⟨key, by rw [key], by rw [key]; exact hd⟩

/-- C7, amended, at the cluster holding only the Download without S3 output. -/
theorem Reconcile_without_s3_changes_nothing_witness :
    (Reconcile testReconciler noS3Cluster noS3Request).cluster = noS3Cluster ∧
    (Reconcile testReconciler noS3Cluster noS3Request).cluster.jobs = noS3Cluster.jobs ∧
    (Reconcile testReconciler noS3Cluster noS3Request).cluster.findDownload
      noS3Request.NamespacedName = some noS3Download :=
  Reconcile_without_s3_changes_nothing testReconciler noS3Cluster noS3Request noS3Download
    (by decide) rfl (by decide)

/-- C8, at a concrete cluster: the Download is recorded as Completed and its
worker Job is gone, and Reconcile creates the worker Job again. -/
theorem terminal_phase_job_created_again :
    completedCluster.findDownload testRequest.NamespacedName = some completedDownload ∧
    completedDownload.Status.Phase = "Completed" ∧
    completedCluster.jobs = [] ∧
    (Reconcile testReconciler completedCluster testRequest).cluster ≠ completedCluster ∧
    (Reconcile testReconciler completedCluster testRequest).cluster.jobs.length = 1 := by
  decide

/-- C8, amended: for a Download recorded as Completed or Failed, Reconcile
never changes a Download, and when the worker Job is present in the store
it creates no Job and leaves the whole cluster as it was. -/
theorem Reconcile_terminal_keeps_status (r : DownloadReconciler) (c : Cluster)
    (req : Request) (d : Download)
    (hd : c.findDownload req.NamespacedName = some d)
    (_hphase : d.Status.Phase = "Completed" ∨ d.Status.Phase = "Failed") :
    (Reconcile r c req).cluster.downloads = c.downloads ∧
    (Reconcile r c req).cluster.findDownload req.NamespacedName = some d ∧
    (∀ j, c.findJob (workerKey d) = some j → (Reconcile r c req).cluster = c) := by
  rcases Reconcile_cluster r c req with ⟨h1, -⟩ | ⟨d2, job, hd2, hj2, -, -, -, hrun⟩
  · rw [h1]
    exact ⟨rfl, hd, fun _ _ => rfl⟩
  · rw [hd] at hd2
    have hdd : d = d2 := by injection hd2
    subst hdd
    rw [hrun]
    refine ⟨rfl, hd, ?_⟩
    intro j hj
    rw [hj2] at hj
    exact absurd hj (by simp)

/-- C8, amended, at the cluster with the Completed Download and a Job under
its worker name. -/
theorem Reconcile_terminal_keeps_status_witness :
    (Reconcile testReconciler completedClusterWithJob testRequest).cluster.downloads =
      completedClusterWithJob.downloads ∧
    (Reconcile testReconciler completedClusterWithJob testRequest).cluster.findDownload
      testRequest.NamespacedName = some completedDownload ∧
    (∀ j, completedClusterWithJob.findJob (workerKey completedDownload) = some j →
      (Reconcile testReconciler completedClusterWithJob testRequest).cluster =
        completedClusterWithJob) :=
  Reconcile_terminal_keeps_status testReconciler completedClusterWithJob testRequest
    completedDownload (by decide) (Or.inl (by decide))

/-- C9, at a concrete cluster: a Job without any owner reference sits under
the worker name of the Download, and Reconcile returns the empty result
with a nil error. -/
theorem ownership_conflict_returns_nil_error :
    conflictCluster.findDownload testRequest.NamespacedName = some testDownload ∧
    conflictCluster.findJob (workerKey testDownload) = some foreignJob ∧
    GetControllerOf foreignJob.ObjectMeta = none ∧
    (Reconcile testReconciler conflictCluster testRequest).outcome =
      Outcome.returned { Requeue := false, RequeueAfter := 0 } none := by
  decide

/-- C9, amended: when the Download exists and a Job under its worker key
exists whose controller reference is missing or names another owner, and
both Get calls go through, Reconcile returns the empty result with a nil
error and leaves the cluster, that Job included, exactly as it was. -/
theorem Reconcile_foreign_job_left_alone (r : DownloadReconciler) (c : Cluster)
    (req : Request) (d : Download) (j : Job)
    (hget : r.Client.getDownloadErr = none) (hgetJob : r.Client.getJobErr = none)
    (hd : c.findDownload req.NamespacedName = some d)
    (hj : c.findJob (workerKey d) = some j)
    (_hown : GetControllerOf j.ObjectMeta = none ∨
      ∃ ref, GetControllerOf j.ObjectMeta = some ref ∧ ref.UID ≠ d.ObjectMeta.UID) :
    Reconcile r c req =
      { cluster := c, outcome := Outcome.returned { Requeue := false, RequeueAfter := 0 } none } ∧
    (Reconcile r c req).cluster.findJob (workerKey d) = some j := by
  have hrun := Reconcile_job_found r c req d j hget hgetJob hd hj
  rw [hrun]
  exact ⟨rfl, hj⟩

/-- C9, amended, at the cluster with the unowned Job. -/
theorem Reconcile_foreign_job_left_alone_witness :
    Reconcile testReconciler conflictCluster testRequest =
      { cluster := conflictCluster,
        outcome := Outcome.returned { Requeue := false, RequeueAfter := 0 } none } ∧
    (Reconcile testReconciler conflictCluster testRequest).cluster.findJob
      (workerKey testDownload) = some foreignJob :=
  Reconcile_foreign_job_left_alone testReconciler conflictCluster testRequest testDownload
    foreignJob rfl rfl (by decide) (by decide) (Or.inl (by decide))

/-- C10, at a concrete cluster: the Download is Running and its worker Job
reports one success, and after Reconcile the Download is stored as before:
Phase is not Completed and CompletionTime is not set. -/
theorem succeeded_job_not_marked_completed :
    succeededCluster.findJob (workerKey runningDownload) = some succeededJob ∧
    succeededJob.Status.Succeeded = 1 ∧
    (Reconcile testReconciler succeededCluster testRequest).cluster.findDownload
      testRequest.NamespacedName = some runningDownload ∧
    runningDownload.Status.Phase ≠ "Completed" ∧
    runningDownload.Status.CompletionTime = none := by
  decide

/-- C10, amended: when the Download exists with a non-terminal Phase, its
worker Job exists and reports at least one success, and both Get calls go
through, Reconcile leaves the status of the Download as it was (Phase and
CompletionTime included), takes no action on the Job, and returns the empty
result with a nil error. -/
theorem Reconcile_succeeded_job_no_status_write (r : DownloadReconciler) (c : Cluster)
    (req : Request) (d : Download) (j : Job)
    (hget : r.Client.getDownloadErr = none) (hgetJob : r.Client.getJobErr = none)
    (hd : c.findDownload req.NamespacedName = some d)
    (_hphase : d.Status.Phase ≠ "Completed" ∧ d.Status.Phase ≠ "Failed")
    (hj : c.findJob (workerKey d) = some j)
    (_hsucc : 1 ≤ j.Status.Succeeded) :
    (Reconcile r c req).cluster.findDownload req.NamespacedName = some d ∧
    (Reconcile r c req).cluster.jobs = c.jobs ∧
    (Reconcile r c req).outcome = Outcome.returned { Requeue := false, RequeueAfter := 0 } none := by
  have hrun := Reconcile_job_found r c req d j hget hgetJob hd hj
  rw [hrun]
  exact ⟨hd, rfl, rfl⟩

/-- C10, amended, at the cluster with the Running Download and its succeeded Job. -/
theorem Reconcile_succeeded_job_no_status_write_witness :
    (Reconcile testReconciler succeededCluster testRequest).cluster.findDownload
      testRequest.NamespacedName = some runningDownload ∧
    (Reconcile testReconciler succeededCluster testRequest).cluster.jobs = succeededCluster.jobs ∧
    (Reconcile testReconciler succeededCluster testRequest).outcome =
      Outcome.returned { Requeue := false, RequeueAfter := 0 } none :=
  Reconcile_succeeded_job_no_status_write testReconciler succeededCluster testRequest
    runningDownload succeededJob rfl rfl (by decide) (by decide) (by decide) (by decide)

/-! ## Theorems: the absent case -/

/-- C11: when the store holds no Download under the request key and the Get
goes through (so it answers NotFound), Reconcile returns the empty result
(no requeue, no delay) and a nil error and leaves the cluster as it was,
whatever Jobs the store holds and whatever the Job calls would answer. -/
theorem Reconcile_absent (r : DownloadReconciler) (c : Cluster) (req : Request)
    (hget : r.Client.getDownloadErr = none)
    (habsent : c.findDownload req.NamespacedName = none) :
    r.Client.GetDownload c req.NamespacedName = Except.error Err.NotFound ∧
    Reconcile r c req =
      { cluster := c, outcome := Outcome.returned { Requeue := false, RequeueAfter := 0 } none } := by
  have hnf : r.Client.GetDownload c req.NamespacedName = Except.error Err.NotFound := by
    simp [Client.GetDownload, hget, habsent]
  refine ⟨hnf, ?_⟩
  simp [Reconcile, hnf, IgnoreNotFound]

/-- C11 at a cluster without Download that still holds a Job under the worker name. -/
theorem Reconcile_absent_witness :
    testReconciler.Client.GetDownload absentCluster testRequest.NamespacedName =
      Except.error Err.NotFound ∧
    Reconcile testReconciler absentCluster testRequest =
      { cluster := absentCluster,
        outcome := Outcome.returned { Requeue := false, RequeueAfter := 0 } none } :=
  Reconcile_absent testReconciler absentCluster testRequest rfl (by decide)

/-! ## Theorems: what the arguments do not depend on -/

/-- C12: for every spec with an S3 output and every two keys, the arguments
built with the one key and with the other are the same list. -/
theorem buildYtDlpArgs_independent_of_Key (s : DownloadSpec) (s3 : S3Output) (k1 k2 : String) :
    buildYtDlpArgs { s with Output := { S3 := some { s3 with Key := k1 } } } =
      buildYtDlpArgs { s with Output := { S3 := some { s3 with Key := k2 } } } := by
  simp [buildYtDlpArgs]

/-- C16: for every spec with an S3 output and every two secret names, the
arguments built with the one and with the other are the same list; and for
every Download and Job name, the two Jobs that newDownloadJob builds agree
in metadata, status, restart policy and grace period, each has a single
container, and the two containers agree in name, image and arguments: the
secret name reaches only the environment entries. -/
theorem buildYtDlpArgs_independent_of_SecretRef (s : DownloadSpec) (s3 : S3Output)
    (r1 r2 : String) :
    buildYtDlpArgs { s with Output := { S3 := some { s3 with SecretRef := r1 } } } =
      buildYtDlpArgs { s with Output := { S3 := some { s3 with SecretRef := r2 } } } ∧
    ∀ (d : Download) (jobName : String), ∃ job1 job2 ct1 ct2,
      newDownloadJob { d with Spec := { s with Output := { S3 := some { s3 with SecretRef := r1 } } } }
        jobName = GoRun.ret (job1, none) ∧
      newDownloadJob { d with Spec := { s with Output := { S3 := some { s3 with SecretRef := r2 } } } }
        jobName = GoRun.ret (job2, none) ∧
      job1.ObjectMeta = job2.ObjectMeta ∧
      job1.Status = job2.Status ∧
      job1.Spec.Template.Spec.RestartPolicy = job2.Spec.Template.Spec.RestartPolicy ∧
      job1.Spec.Template.Spec.TerminationGracePeriodSeconds =
        job2.Spec.Template.Spec.TerminationGracePeriodSeconds ∧
      job1.Spec.Template.Spec.Containers = [ct1] ∧
      job2.Spec.Template.Spec.Containers = [ct2] ∧
      ct1.Name = ct2.Name ∧ ct1.Image = ct2.Image ∧
      ct1.Args = ct2.Args ∧
      ct1.Args = buildYtDlpArgs { s with Output := { S3 := some { s3 with SecretRef := r1 } } } ∧
      ct1.Env.map (fun e => e.Name) = ct2.Env.map (fun e => e.Name) := by
  constructor
  · simp [buildYtDlpArgs]
  · intro d jobName
    simp [newDownloadJob, buildYtDlpArgs]

/-! ## Theorems: the pod of the worker Job -/

/-- C15: for every Download with an S3 output and every Job name, the Job
that newDownloadJob returns has restart policy OnFailure, a termination
grace period of 60 seconds, exactly one container, the given name and the
namespace of the Download. -/
theorem newDownloadJob_pod (d : Download) (jobName : String) (s3 : S3Output)
    (hs3 : d.Spec.Output.S3 = some s3) :
    ∃ job ct, newDownloadJob d jobName = GoRun.ret (job, none) ∧
      job.Spec.Template.Spec.RestartPolicy = RestartPolicy.OnFailure ∧
      job.Spec.Template.Spec.TerminationGracePeriodSeconds = some 60 ∧
      job.Spec.Template.Spec.Containers = [ct] ∧
      job.Spec.Template.Spec.Containers.length = 1 ∧
      job.ObjectMeta.Name = jobName ∧
      job.ObjectMeta.Namespace = d.ObjectMeta.Namespace := by
  unfold newDownloadJob
  simp [hs3]

/-- C15 at the Download of the controller test. -/
theorem newDownloadJob_pod_witness :
    ∃ job ct, newDownloadJob testDownload "test-download-basic-worker" = GoRun.ret (job, none) ∧
      job.Spec.Template.Spec.RestartPolicy = RestartPolicy.OnFailure ∧
      job.Spec.Template.Spec.TerminationGracePeriodSeconds = some 60 ∧
      job.Spec.Template.Spec.Containers = [ct] ∧
      job.Spec.Template.Spec.Containers.length = 1 ∧
      job.ObjectMeta.Name = "test-download-basic-worker" ∧
      job.ObjectMeta.Namespace = testDownload.ObjectMeta.Namespace :=
  newDownloadJob_pod testDownload "test-download-basic-worker" testS3 rfl

/-! ## Theorems: store failures and the phase order -/

/-- An error other than NotFound passes through `IgnoreNotFound`. -/
lemma IgnoreNotFound_of_ne (e : Err) (hne : e ≠ Err.NotFound) :
    IgnoreNotFound (some e) = some e := by
  cases e with
  | NotFound => exact absurd rfl hne
  | AlreadyExists => rfl
  | Other msg => rfl

/-- No run of `Reconcile` changes the stored Downloads. -/
lemma Reconcile_downloads (r : DownloadReconciler) (c : Cluster) (req : Request) :
    (Reconcile r c req).cluster.downloads = c.downloads := by
  rcases Reconcile_cluster r c req with ⟨h1, -⟩ | ⟨d, job, -, -, -, -, -, hrun⟩
  · rw [h1]
  · rw [hrun]

/-- No run of `Reconcile` changes what a lookup of a Download answers. -/
lemma Reconcile_findDownload (r : DownloadReconciler) (c : Cluster) (req : Request)
    (key : NamespacedName) :
    (Reconcile r c req).cluster.findDownload key = c.findDownload key := by
  unfold Cluster.findDownload
  rw [Reconcile_downloads]

/-- C13: when a store call of Reconcile fails with an error other than
NotFound (the Get of the Download, the Get of the worker Job, or the Create
of the worker Job once the run has reached it), Reconcile returns the empty
result with that very error and leaves the cluster as it was: no status is
written, so no Phase becomes Failed, and no Job is created. -/
theorem Reconcile_returns_store_error (r : DownloadReconciler) (c : Cluster) (req : Request)
    (e : Err) (hne : e ≠ Err.NotFound)
    (hfail :
      r.Client.getDownloadErr = some e ∨
      (∃ d, r.Client.getDownloadErr = none ∧ c.findDownload req.NamespacedName = some d ∧
        r.Client.getJobErr = some e) ∨
      (∃ d s3 gvk, r.Client.getDownloadErr = none ∧ c.findDownload req.NamespacedName = some d ∧
        r.Client.getJobErr = none ∧ c.findJob (workerKey d) = none ∧
        d.Spec.Output.S3 = some s3 ∧ r.Scheme.downloadKind = some gvk ∧
        r.Client.createJobErr = some e)) :
    Reconcile r c req =
      { cluster := c,
        outcome := Outcome.returned { Requeue := false, RequeueAfter := 0 } (some e) } ∧
    (Reconcile r c req).cluster.jobs = c.jobs ∧
    (∀ key d, c.findDownload key = some d →
      (Reconcile r c req).cluster.findDownload key = some d) := by
  have hign := IgnoreNotFound_of_ne e hne
  have hrun : Reconcile r c req =
      { cluster := c,
        outcome := Outcome.returned { Requeue := false, RequeueAfter := 0 } (some e) } := by
    rcases hfail with h1 | ⟨d, hget, hd, hgetJob⟩ | ⟨d, s3, gvk, hget, hd, hgetJob, hj, hs3, hk, hcreate⟩
    · simp [Reconcile, Client.GetDownload, h1, hign]
    · simp [Reconcile, Client.GetDownload, Client.GetJob, hget, hd, hgetJob, hign]
    · obtain ⟨job, hjob, hmeta, -⟩ :=
        newDownloadJob_some d (d.ObjectMeta.Name ++ "-worker") s3 hs3
      have hsc := SetControllerReference_fresh d.ObjectMeta job r.Scheme gvk hk (by rw [hmeta])
      unfold workerKey at hj
      simp [Reconcile, Client.GetDownload, Client.GetJob, Client.CreateJob, IgnoreNotFound,
        hget, hd, hgetJob, hj, hjob, hsc, hcreate]
  rw [hrun]
  exact ⟨rfl, rfl, fun _ _ h => h⟩

/-- C13 at the cluster of the controller test, once for each failing call. -/
theorem Reconcile_returns_store_error_witness :
    (Reconcile { Client := failingGetDownloadClient, Scheme := testScheme } pendingCluster
        testRequest).outcome =
      Outcome.returned { Requeue := false, RequeueAfter := 0 }
        (some (Err.Other "the server is currently unable to handle the request")) ∧
    (Reconcile { Client := failingGetJobClient, Scheme := testScheme } pendingCluster
        testRequest).outcome =
      Outcome.returned { Requeue := false, RequeueAfter := 0 }
        (some (Err.Other "the server is currently unable to handle the request")) ∧
    (Reconcile { Client := failingCreateClient, Scheme := testScheme } pendingCluster
        testRequest).outcome =
      Outcome.returned { Requeue := false, RequeueAfter := 0 }
        (some (Err.Other "the server is currently unable to handle the request")) ∧
    (Reconcile { Client := failingCreateClient, Scheme := testScheme } pendingCluster
        testRequest).cluster.jobs = pendingCluster.jobs :=
  ⟨congrArg Step.outcome
      (Reconcile_returns_store_error { Client := failingGetDownloadClient, Scheme := testScheme }
        pendingCluster testRequest _ (by decide) (Or.inl rfl)).1,
   congrArg Step.outcome
      (Reconcile_returns_store_error { Client := failingGetJobClient, Scheme := testScheme }
        pendingCluster testRequest _ (by decide)
        (Or.inr (Or.inl ⟨testDownload, rfl, by decide, rfl⟩))).1,
   congrArg Step.outcome
      (Reconcile_returns_store_error { Client := failingCreateClient, Scheme := testScheme }
        pendingCluster testRequest _ (by decide)
        (Or.inr (Or.inr ⟨testDownload, testS3, _, rfl, by decide, rfl, by decide, rfl, rfl, rfl⟩))).1,
   (Reconcile_returns_store_error { Client := failingCreateClient, Scheme := testScheme }
        pendingCluster testRequest _ (by decide)
        (Or.inr (Or.inr ⟨testDownload, testS3, _, rfl, by decide, rfl, by decide, rfl, rfl, rfl⟩))).2.1⟩

/-- C14: for every run of Reconcile and every stored Download, the Download
is still stored afterwards and its Phase is the Phase before or a forward
move in the order Pending, Running, then Completed or Failed; a Download
whose Phase is Completed or Failed has the same Phase afterwards. -/
theorem Reconcile_phase_monotone (r : DownloadReconciler) (c : Cluster) (req : Request)
    (key : NamespacedName) (d : Download)
    (hd : c.findDownload key = some d) :
    ∃ d2, (Reconcile r c req).cluster.findDownload key = some d2 ∧
      (d2.Status.Phase = d.Status.Phase ∨ phaseForward d.Status.Phase d2.Status.Phase) ∧
      (terminalPhase d.Status.Phase → d2.Status.Phase = d.Status.Phase) := by
  refine ⟨d, ?_, Or.inl rfl, fun _ => rfl⟩
  rw [Reconcile_findDownload]
  exact hd

/-- C14 at the cluster with the Completed Download whose worker Job is gone. -/
theorem Reconcile_phase_monotone_witness :
    ∃ d2, (Reconcile testReconciler completedCluster testRequest).cluster.findDownload
        testRequest.NamespacedName = some d2 ∧
      (d2.Status.Phase = completedDownload.Status.Phase ∨
        phaseForward completedDownload.Status.Phase d2.Status.Phase) ∧
      (terminalPhase completedDownload.Status.Phase →
        d2.Status.Phase = completedDownload.Status.Phase) :=
  Reconcile_phase_monotone testReconciler completedCluster testRequest
    testRequest.NamespacedName completedDownload (by decide)

end YtdlpOperator
